import Mathlib

/-!
Shallow embedding of the pjpawel/runner command-execution engine.

The repository holds two evolving copies of the engine:

* `src/runner_pjpawel/command/base.py`: `BaseCommand.process` delegates to the
  recursive `_do_process(iteration)`; it is modelled by `doProcessBase` and
  `processBase` below.
* `src/runner_pjpawel/command.py`: `BaseCommand.process` is an iterative
  `while i <= 3` loop; it is modelled by `processCmdAux` and `processCmd`.

A command's `_do_work` is abstract (subclasses implement it); it is modelled by
a behaviour `Nat → DoWorkOutcome` giving, for each successive invocation, what
that invocation does: return a `CommandResult`, return `None`, raise
`RunnerRuntimeError` (the fault type), or raise some other Python exception.
Python-level failures that the source itself would hit (a `TypeError` from a
call with too many arguments, an `AttributeError` from reading an attribute of
`None` or a never-assigned attribute) are modelled explicitly as `PyExc`
values, since they are observable behaviour of the program.
-/

namespace Runner

inductive CommandResultLevel where
  | OK
  | ERROR
  | CRITICAL
deriving DecidableEq

/-- Python exceptions other than `RunnerRuntimeError` that appear in the
modelled code paths. -/
inductive PyExc where
  | typeError (msg : String)
  | attributeError (msg : String)
  | runtime (tag : Nat)
deriving DecidableEq

/-- Opaque diagnostic values stored in `additional_info` lists. -/
inductive PyVal where
  | str (s : String)
  | exc (e : PyExc)
deriving DecidableEq

/-- The `additional_info` argument is normally a list, but at the retry cap the
source passes the dict `\x7b"command": self\x7d` instead of a list. -/
inductive AdditionalInfo where
  | list (xs : List PyVal)
  | dictCommand
deriving DecidableEq

structure CommandResult where
  level : CommandResultLevel
  msg : Option String
  additional_info : AdditionalInfo
deriving DecidableEq

/-- `CommandResult.__init__`: a `None` additional_info becomes the empty list. -/
def CommandResult.make (level : CommandResultLevel) (msg : Option String)
    (ai : Option AdditionalInfo) : CommandResult :=
  CommandResult.mk level msg (ai.getD (AdditionalInfo.list []))

def CommandResult.new_ok (msg : Option String) (ai : Option AdditionalInfo) : CommandResult :=
  CommandResult.make CommandResultLevel.OK msg ai

def CommandResult.new_error (msg : Option String) (ai : Option AdditionalInfo) : CommandResult :=
  CommandResult.make CommandResultLevel.ERROR msg ai

def CommandResult.new_critical (msg : Option String) (ai : Option AdditionalInfo) : CommandResult :=
  CommandResult.make CommandResultLevel.CRITICAL msg ai

inductive ErrorStrategy where
  | restart
  | stop
  | omit
deriving DecidableEq

/-- One invocation of `_do_work`: it may return a result, return `None`, raise
`RunnerRuntimeError (result, retry)`, or raise some other exception. -/
inductive DoWorkOutcome where
  | ret (r : Option CommandResult)
  | raiseFatal (result : CommandResult) (retry : Nat)
  | raiseExc (e : PyExc)
deriving DecidableEq

/-- Observable effects of the engine: how many times `_do_work` was invoked and
the value of the shared `Counter`. -/
structure EngineState where
  calls : Nat
  counter : Nat
deriving DecidableEq

/-- What a call to `process` (or `_do_process`) does: return a value (`None`
or a `CommandResult`), raise `RunnerRuntimeError`, or die on a Python-level
exception such as `TypeError` or `AttributeError`. -/
inductive ProcOutcome where
  | ret (r : Option CommandResult)
  | raiseFatal (result : CommandResult) (retry : Nat)
  | raisePy (e : PyExc)
deriving DecidableEq

def unexpectedMsg : String := "Unexcepted exception caught"

def cannotRunMsg : String := "Cannot run process. "

/-- In `command/base.py` line 129 the RESTART branch executes
`return self.process(iteration + 1)`, but `process(self)` accepts no extra
positional argument, so the call itself raises `TypeError`. -/
def restartTypeError : PyExc :=
  PyExc.typeError "process takes 1 positional argument but 2 were given"

/-- In `command.py` there is no `None` coercion: when `_do_work` returns
`None`, the statement `match result.level` reads `.level` of `None` and raises
`AttributeError`. -/
def noneLevelError : PyExc :=
  PyExc.attributeError "NoneType object has no attribute level"

/-- The result a raised non-fatal exception is coerced to (both engines):
`CommandResult(CommandResultLevel.ERROR, "Unexcepted exception caught", [e])`. -/
def coerceExc (e : PyExc) : CommandResult :=
  CommandResult.mk CommandResultLevel.ERROR (some unexpectedMsg)
    (AdditionalInfo.list [PyVal.exc e])

/-- Dispatch on `result.level` in `command/base.py` `_do_process` (lines
109-139).  OK increments the Counter and returns the result; ERROR returns the
result under OMIT and STOP, while RESTART executes `self.process(iteration+1)`
which raises `TypeError` (see `restartTypeError`); CRITICAL raises
`RunnerRuntimeError(result, iteration)`. -/
def dispatchBase (strat : ErrorStrategy) (iteration : Nat) (result : CommandResult)
    (s : EngineState) : ProcOutcome × EngineState :=
  match result.level with
  | CommandResultLevel.OK =>
      (ProcOutcome.ret (some result), EngineState.mk s.calls (s.counter + 1))
  | CommandResultLevel.ERROR =>
      match strat with
      | ErrorStrategy.omit => (ProcOutcome.ret (some result), s)
      | ErrorStrategy.restart => (ProcOutcome.raisePy restartTypeError, s)
      | ErrorStrategy.stop => (ProcOutcome.ret (some result), s)
  | CommandResultLevel.CRITICAL =>
      (ProcOutcome.raiseFatal result iteration, s)

/-- `BaseCommand._do_process(iteration)` from `command/base.py` lines 91-139:
cap check, one `_do_work` invocation with `RunnerRuntimeError` re-raised,
`None` coerced to `CommandResult.new_ok()`, other exceptions coerced to an
ERROR result, then the level dispatch. -/
def doProcessBase (work : Nat → DoWorkOutcome) (strat : ErrorStrategy)
    (iteration : Nat) (s : EngineState) : ProcOutcome × EngineState :=
  if iteration > 3 then
    (ProcOutcome.ret (some (CommandResult.new_critical (some cannotRunMsg)
      (some AdditionalInfo.dictCommand))), s)
  else
    match work s.calls with
    | DoWorkOutcome.raiseFatal r n =>
        (ProcOutcome.raiseFatal r n, EngineState.mk (s.calls + 1) s.counter)
    | DoWorkOutcome.ret none =>
        dispatchBase strat iteration (CommandResult.new_ok none none)
          (EngineState.mk (s.calls + 1) s.counter)
    | DoWorkOutcome.ret (some r) =>
        dispatchBase strat iteration r (EngineState.mk (s.calls + 1) s.counter)
    | DoWorkOutcome.raiseExc e =>
        dispatchBase strat iteration (coerceExc e)
          (EngineState.mk (s.calls + 1) s.counter)

/-- `BaseCommand.process` in `command/base.py` lines 88-89 is
`self._do_process()` with no `return`: the result of `_do_process` is
discarded and the method returns `None`; raised exceptions still propagate. -/
def dropReturn : ProcOutcome → ProcOutcome
  | ProcOutcome.ret _ => ProcOutcome.ret none
  | o => o

/-- `BaseCommand.process()` of `command/base.py`: run `_do_process` with the
default `iteration = 1` and discard its return value. -/
def processBase (work : Nat → DoWorkOutcome) (strat : ErrorStrategy)
    (s : EngineState) : ProcOutcome × EngineState :=
  (dropReturn (doProcessBase work strat 1 s).1, (doProcessBase work strat 1 s).2)

/-- The `while i <= 3` loop of `BaseCommand.process` in `command.py` lines
84-113.  `fuel` is the number of loop iterations still allowed (`4 - i`), `i`
is the Python loop variable, `acc` is the current value of the local `result`.
When the loop exits, the source returns the synthesized CRITICAL result only
when `result is None`, and otherwise returns the last result. -/
def processCmdAux (work : Nat → DoWorkOutcome) (strat : ErrorStrategy) :
    Nat → Nat → Option CommandResult → EngineState → ProcOutcome × EngineState
  | 0, _, acc, s =>
      match acc with
      | none => (ProcOutcome.ret (some (CommandResult.new_critical (some cannotRunMsg)
          (some AdditionalInfo.dictCommand))), s)
      | some r => (ProcOutcome.ret (some r), s)
  | Nat.succ fuel, i, _, s =>
      match work s.calls with
      | DoWorkOutcome.raiseFatal r n =>
          (ProcOutcome.raiseFatal r n, EngineState.mk (s.calls + 1) s.counter)
      | DoWorkOutcome.ret none =>
          (ProcOutcome.raisePy noneLevelError, EngineState.mk (s.calls + 1) s.counter)
      | DoWorkOutcome.ret (some r) =>
          match r.level with
          | CommandResultLevel.OK =>
              (ProcOutcome.ret (some r), EngineState.mk (s.calls + 1) (s.counter + 1))
          | CommandResultLevel.ERROR =>
              match strat with
              | ErrorStrategy.omit =>
                  (ProcOutcome.ret (some r), EngineState.mk (s.calls + 1) s.counter)
              | ErrorStrategy.stop =>
                  (ProcOutcome.ret (some r), EngineState.mk (s.calls + 1) s.counter)
              | ErrorStrategy.restart =>
                  processCmdAux work strat fuel (i + 1) (some r)
                    (EngineState.mk (s.calls + 1) s.counter)
          | CommandResultLevel.CRITICAL =>
              (ProcOutcome.raiseFatal r i, EngineState.mk (s.calls + 1) s.counter)
      | DoWorkOutcome.raiseExc e =>
          match strat with
          | ErrorStrategy.omit =>
              (ProcOutcome.ret (some (coerceExc e)), EngineState.mk (s.calls + 1) s.counter)
          | ErrorStrategy.stop =>
              (ProcOutcome.ret (some (coerceExc e)), EngineState.mk (s.calls + 1) s.counter)
          | ErrorStrategy.restart =>
              processCmdAux work strat fuel (i + 1) (some (coerceExc e))
                (EngineState.mk (s.calls + 1) s.counter)

/-- `BaseCommand.process()` of `command.py`: the loop starts with `i = 1`,
`result = None`, and runs while `i <= 3` (three iterations of fuel). -/
def processCmd (work : Nat → DoWorkOutcome) (strat : ErrorStrategy)
    (s : EngineState) : ProcOutcome × EngineState :=
  processCmdAux work strat 3 1 none s

/-- What one call to a child's `process()` looks like from the group's loop:
it returns (the group ignores the value) or it raises `RunnerRuntimeError`. -/
inductive ChildOutcome where
  | ret
  | raiseFatal (result : CommandResult) (retry : Nat)
deriving DecidableEq

/-- Observable state of a `GroupCommand` run: the list of child indexes whose
`process()` was invoked (in invocation order), the `self.iteration` field, and
how many times a reset-callback replacement command was processed. -/
structure GroupState where
  trace : List Nat
  iteration : Nat
  replCalls : Nat
deriving DecidableEq

def pushTrace (s : GroupState) (i : Nat) : GroupState :=
  GroupState.mk (s.trace ++ [i]) s.iteration s.replCalls

/-- How many times child `i` has been invoked so far. -/
def countCalls (trace : List Nat) (i : Nat) : Nat :=
  (trace.filter (fun j => j == i)).length

inductive LoopExit where
  | finished
  | fatal (result : CommandResult) (retry : Nat)
deriving DecidableEq

/-- The `while i < len(self.commands)` loop of `GroupCommand._do_work`
(`command/base.py` lines 220-223 and identically `command.py` lines 186-189).
The loop body is only `self.commands[i].process()`: the index `i` is never
incremented, so every pass runs the child at index 0.  `fuel` bounds how many
passes we unfold; a `none` exit means the loop is still running after `fuel`
passes (in the limit, nontermination).  Each child behaviour is a function of
how many times that child has been invoked. -/
def groupLoop (children : List (Nat → ChildOutcome)) :
    Nat → GroupState → Option LoopExit × GroupState
  | 0, s => (none, s)
  | Nat.succ fuel, s =>
      match children.head? with
      | none => (some LoopExit.finished, s)
      | some child =>
          match child (countCalls s.trace 0) with
          | ChildOutcome.ret => groupLoop children fuel (pushTrace s 0)
          | ChildOutcome.raiseFatal r n =>
              (some (LoopExit.fatal r n), pushTrace s 0)

inductive GroupOutcome where
  | retNone
  | raiseFatal (result : CommandResult) (retry : Nat)
deriving DecidableEq

/-- The reset-callback step inside the `except` handler: the callback is
called with `self.commands[i]` (`i` is still 0) and the fault's result; a
returned replacement command has its `process()` run once, and a fault raised
by that replacement is not caught (it escapes `_do_work`).  The callback is
modelled as a function from the failed index and result to the replacement's
single `process()` outcome (or `none` when the callback returns `None`). -/
def runResetCb (resetCb : Option (Nat → CommandResult → Option ChildOutcome))
    (r : CommandResult) (s : GroupState) :
    Option (CommandResult × Nat) × GroupState :=
  match resetCb with
  | none => (none, s)
  | some cb =>
      match cb 0 r with
      | none => (none, s)
      | some ChildOutcome.ret =>
          (none, GroupState.mk s.trace s.iteration (s.replCalls + 1))
      | some (ChildOutcome.raiseFatal r2 n2) =>
          (some (r2, n2), GroupState.mk s.trace s.iteration (s.replCalls + 1))

/-- `GroupCommand._do_work` (`command/base.py` lines 218-236): run the child
loop; on a caught `RunnerRuntimeError` run the reset callback, then dispatch
on the group's own strategy: OMIT returns `None`, STOP re-raises the original
fault, RESTART increments `self.iteration` and recurses into `_do_work`,
discarding its value (the function then falls through and returns `None`).
`restartFuel` bounds the RESTART recursion depth, `loopFuel` bounds each inner
loop; `none` means the run is still going when the fuel ends. -/
def groupDoWork (children : List (Nat → ChildOutcome))
    (resetCb : Option (Nat → CommandResult → Option ChildOutcome))
    (strat : ErrorStrategy) :
    Nat → Nat → GroupState → Option GroupOutcome × GroupState
  | restartFuel, loopFuel, s =>
      match groupLoop children loopFuel s with
      | (none, s1) => (none, s1)
      | (some LoopExit.finished, s1) => (some GroupOutcome.retNone, s1)
      | (some (LoopExit.fatal r n), s1) =>
          match runResetCb resetCb r s1 with
          | (some (r2, n2), s2) => (some (GroupOutcome.raiseFatal r2 n2), s2)
          | (none, s2) =>
              match strat with
              | ErrorStrategy.omit => (some GroupOutcome.retNone, s2)
              | ErrorStrategy.stop => (some (GroupOutcome.raiseFatal r n), s2)
              | ErrorStrategy.restart =>
                  match restartFuel with
                  | 0 => (none, s2)
                  | Nat.succ rf =>
                      match groupDoWork children resetCb strat rf loopFuel
                          (GroupState.mk s2.trace (s2.iteration + 1) s2.replCalls) with
                      | (none, s3) => (none, s3)
                      | (some (GroupOutcome.raiseFatal r3 n3), s3) =>
                          (some (GroupOutcome.raiseFatal r3 n3), s3)
                      | (some GroupOutcome.retNone, s3) =>
                          (some GroupOutcome.retNone, s3)

/-- A command object as built by `BaseCommand.__init__` of
`command/base.py`: the class annotates `number_of_works: int` but the
constructor never assigns it, so reading the attribute raises
`AttributeError`; the unset attribute is modelled as `none`. -/
structure CmdObj where
  number_of_works : Option Nat
deriving DecidableEq

def mkBaseCommand : CmdObj := CmdObj.mk none

def attrErrMsg : String := "object has no attribute number_of_works"

/-- `sum(command.number_of_works for command in self.commands)`: Python reads
each child's attribute left to right and raises `AttributeError` at the first
child whose attribute was never assigned. -/
def sumNumberOfWorks : List CmdObj → Except PyExc Nat
  | [] => Except.ok 0
  | c :: rest =>
      match c.number_of_works with
      | none => Except.error (PyExc.attributeError attrErrMsg)
      | some n =>
          match sumNumberOfWorks rest with
          | Except.ok m => Except.ok (n + m)
          | Except.error e => Except.error e

/-- `BaseCommand.get_number_of_works` (`command/base.py` lines 147-148)
returns the constant 1. -/
def baseGetNumberOfWorks : Nat := 1

/-- `GroupCommand.get_number_of_works` (`command/base.py` lines 215-216):
the sum of the children's `number_of_works` attributes (not their
`get_number_of_works()` methods).  `ParallelCommand` inherits this method. -/
def groupGetNumberOfWorks (children : List CmdObj) : Except PyExc Nat :=
  sumNumberOfWorks children

/-- `CyclicCommand` (`command/base.py` lines 264-279) defines no
`get_number_of_works` override, so the inherited `BaseCommand` method returns
1 whatever `cycles` is. -/
def cyclicGetNumberOfWorks (_cycles : Nat) : Nat := baseGetNumberOfWorks

/-- Observable behaviour of one `ParallelCommand._do_work` run: the value the
method returns to its caller, the fault it re-raises to its caller (if any),
and the faults raised inside worker threads that were lost at the thread
boundary. -/
structure ParallelRun where
  returned : Option CommandResult
  raised : Option (CommandResult × Nat)
  swallowed : List (CommandResult × Nat)
deriving DecidableEq

def faultOf : ProcOutcome → Option (CommandResult × Nat)
  | ProcOutcome.raiseFatal r n => some (r, n)
  | _ => none

/-- `ParallelCommand._do_work` (`command/base.py` lines 253-261): each worker
thread runs `command.process`; an exception raised inside a thread target is
caught by the thread bootstrap and reported to stderr, never delivered to the
joining thread; `thread.join()` returns `None` and the loop ignores it (the
source marks this `TODO: get results and output`); `_do_work` then falls
through and returns `None`.  The list argument gives each child's `process()`
outcome. -/
def parallelDoWork (childOutcomes : List ProcOutcome) : ParallelRun :=
  ParallelRun.mk none none (childOutcomes.filterMap faultOf)

/-- `ShellCommand._do_work` (`command/base.py` lines 174-189): the spawned
process's exit code, captured stdout and captured stderr determine the
result: level OK exactly when the exit code is 0, message the captured
stdout, `additional_info` the one-element list holding the captured stderr. -/
def shellDoWork (returncode : Int) (stdout : String) (stderr : String) : CommandResult :=
  CommandResult.mk
    (if returncode = 0 then CommandResultLevel.OK else CommandResultLevel.ERROR)
    (some stdout)
    (AdditionalInfo.list [PyVal.str stderr])

def threadTimeoutMsg : String := "Thread timeout"

def specTimeoutMsg : String := "timeout"

/-- `ThreadCommand._do_work` (`command/base.py` lines 297-303): after
`thread.join(self.timeout)`, `thread.is_alive()` tells whether the worker
missed the deadline.  `alive = true` (worker still running) yields
`CommandResult.new_error("Thread timeout")`; otherwise
`CommandResult.new_ok()`.  Nothing cancels the worker. -/
def threadDoWork (alive : Bool) : CommandResult :=
  if alive then CommandResult.new_error (some threadTimeoutMsg) none
  else CommandResult.new_ok none none

/-- Concrete do-work behaviours and results used in the theorems below. -/
def fineMsg : String := "fine"

def badMsg : String := "bad"

def fatalMsg : String := "fatal"

def okR : CommandResult := CommandResult.new_ok (some fineMsg) none

def errR : CommandResult := CommandResult.new_error (some badMsg) none

def critR : CommandResult := CommandResult.new_critical (some fatalMsg) none

def okBeh : Nat → DoWorkOutcome := fun _ => DoWorkOutcome.ret (some okR)

def errBeh : Nat → DoWorkOutcome := fun _ => DoWorkOutcome.ret (some errR)

def noneBeh : Nat → DoWorkOutcome := fun _ => DoWorkOutcome.ret none

def excBeh : Nat → DoWorkOutcome := fun _ => DoWorkOutcome.raiseExc (PyExc.runtime 7)

def fatalBeh : Nat → DoWorkOutcome := fun _ => DoWorkOutcome.raiseFatal errR 5

/-- A do-work behaviour that yields ERROR on its first two invocations and OK
on the third. -/
def eeoBeh : Nat → DoWorkOutcome := fun k =>
  if k < 2 then DoWorkOutcome.ret (some errR) else DoWorkOutcome.ret (some okR)

def s0 : EngineState := EngineState.mk 0 0

/-- A child command whose `process()` always returns normally. -/
def okChild : Nat → ChildOutcome := fun _ => ChildOutcome.ret

def twoChildren : List (Nat → ChildOutcome) := [okChild, okChild]

def g0 : GroupState := GroupState.mk [] 0 0

def outMsg : String := "done"

def errStream : String := "oops"

/-- Helper: the group loop over two always-returning children never exits and
only ever appends index 0 to the trace. -/
theorem groupLoop_twoChildren (fuel : Nat) (s : GroupState) :
    groupLoop twoChildren fuel s =
      (none, GroupState.mk (s.trace ++ List.replicate fuel 0) s.iteration s.replCalls) := by
  induction fuel generalizing s with
  | zero => simp [groupLoop]
  | succ f ih =>
      have hh : twoChildren.head? = some okChild := rfl
      simp [groupLoop, hh, okChild, pushTrace, ih, List.replicate_succ,
        List.append_assoc]

/-- Helper: one step of the `command.py` loop when `_do_work` raises
`RunnerRuntimeError`: the fault is re-raised unchanged. -/
theorem processCmdAux_fatal (work : Nat → DoWorkOutcome) (strat : ErrorStrategy)
    (fuel i : Nat) (acc : Option CommandResult) (s : EngineState)
    (r : CommandResult) (n : Nat)
    (h : work s.calls = DoWorkOutcome.raiseFatal r n) :
    processCmdAux work strat (Nat.succ fuel) i acc s =
      (ProcOutcome.raiseFatal r n, EngineState.mk (s.calls + 1) s.counter) := by
  simp [processCmdAux, h]

/-- Helper: one step of the `command.py` loop when `_do_work` returns a
CRITICAL result: `RunnerRuntimeError(result, i)` is raised. -/
theorem processCmdAux_critical (work : Nat → DoWorkOutcome) (strat : ErrorStrategy)
    (fuel i : Nat) (acc : Option CommandResult) (s : EngineState)
    (r : CommandResult)
    (h : work s.calls = DoWorkOutcome.ret (some r))
    (hl : r.level = CommandResultLevel.CRITICAL) :
    processCmdAux work strat (Nat.succ fuel) i acc s =
      (ProcOutcome.raiseFatal r i, EngineState.mk (s.calls + 1) s.counter) := by
  simp [processCmdAux, h, hl]

/-- C1: the claim says `process()` returns the dispatched `CommandResult` when
the outcome is OK (or ERROR under stop/omit) and raises only on CRITICAL.  In
`command/base.py`, `process` discards the value of `_do_process` and returns
`None`: for a do-work behaviour returning an OK result under the stop
strategy, the base engine's `process()` yields `None` where the `command.py`
engine yields the result itself. -/
theorem c1_base_process_drops_ok_result :
    processBase okBeh ErrorStrategy.stop s0 = (ProcOutcome.ret none, EngineState.mk 1 1) ∧
    processCmd okBeh ErrorStrategy.stop s0 = (ProcOutcome.ret (some okR), EngineState.mk 1 1) ∧
    (ProcOutcome.ret none : ProcOutcome) ≠ ProcOutcome.ret (some okR) :=
  ⟨rfl, rfl, by decide⟩

/-- C2: the claim says the group invokes each child's `process()` exactly once
in list order.  The loop in `GroupCommand._do_work` never increments its index,
so for a group of two children whose `process()` always returns normally the
run never terminates (every fuel bound is exhausted) and the second child is
never invoked. -/
theorem c2_group_never_reaches_second_child (restartFuel loopFuel : Nat) :
    (groupDoWork twoChildren none ErrorStrategy.stop restartFuel loopFuel g0).1 = none ∧
    1 ∉ (groupDoWork twoChildren none ErrorStrategy.stop restartFuel loopFuel g0).2.trace := by
  have h := groupLoop_twoChildren loopFuel g0
  rw [groupDoWork, h]
  simp [g0, List.mem_replicate]

/-- C3: the claim says that when the 3-attempt RESTART cap is exceeded the
engine returns a synthesized CRITICAL result with message "cannot run
process".  The `command.py` engine instead returns the third ERROR result
unchanged (the synthesized CRITICAL is only returned when the local `result`
is `None`, which cannot happen after an attempt); the `command/base.py` engine
never reaches the cap because its first restart raises `TypeError`. -/
theorem c3_cap_returns_last_error_not_critical :
    processCmd errBeh ErrorStrategy.restart s0 = (ProcOutcome.ret (some errR), EngineState.mk 3 0) ∧
    errR.level ≠ CommandResultLevel.CRITICAL ∧
    errR.msg ≠ some cannotRunMsg ∧
    processBase errBeh ErrorStrategy.restart s0 =
      (ProcOutcome.raisePy restartTypeError, EngineState.mk 1 0) :=
  ⟨rfl, by decide, by decide, rfl⟩

/-- C4: for the ERROR, ERROR, OK behaviour under the restart strategy, the
`command.py` engine behaves as the claim says (returns the OK result, three
`_do_work` invocations, one Counter increment), but the `command/base.py`
engine raises `TypeError` at the first restart because the RESTART branch
calls `self.process(iteration + 1)` and `process` takes no argument. -/
theorem c4_restart_error_error_ok :
    processCmd eeoBeh ErrorStrategy.restart s0 = (ProcOutcome.ret (some okR), EngineState.mk 3 1) ∧
    processBase eeoBeh ErrorStrategy.restart s0 =
      (ProcOutcome.raisePy restartTypeError, EngineState.mk 1 0) :=
  ⟨rfl, rfl⟩

/-- C5: both engines coerce a non-fatal exception raised by `_do_work` into an
ERROR result carrying the exception in `additional_info`, but only
`command/base.py` coerces a `None` result to OK: the `command.py` engine dies
with `AttributeError` on `match result.level` when `_do_work` returns
`None`. -/
theorem c5_exception_and_none_coercion :
    doProcessBase noneBeh ErrorStrategy.stop 1 s0 =
      (ProcOutcome.ret (some (CommandResult.new_ok none none)), EngineState.mk 1 1) ∧
    processCmd noneBeh ErrorStrategy.stop s0 =
      (ProcOutcome.raisePy noneLevelError, EngineState.mk 1 0) ∧
    doProcessBase excBeh ErrorStrategy.stop 1 s0 =
      (ProcOutcome.ret (some (coerceExc (PyExc.runtime 7))), EngineState.mk 1 0) ∧
    processCmd excBeh ErrorStrategy.stop s0 =
      (ProcOutcome.ret (some (coerceExc (PyExc.runtime 7))), EngineState.mk 1 0) :=
  ⟨rfl, rfl, rfl, rfl⟩

/-- C6: the claim says a composite's `get_number_of_works()` equals the sum of
the children's counts (Sequential/Parallel) or the child's count times
`cycles` (Cyclic).  In the code the `number_of_works` attribute is never
assigned, so `GroupCommand.get_number_of_works` (inherited by
`ParallelCommand`) raises `AttributeError` even for a single plain child, and
`CyclicCommand` does not override `get_number_of_works`, so it returns 1
rather than `child count x cycles`. -/
theorem c6_number_of_works_broken :
    groupGetNumberOfWorks [mkBaseCommand] =
      Except.error (PyExc.attributeError attrErrMsg) ∧
    cyclicGetNumberOfWorks 5 = 1 ∧
    baseGetNumberOfWorks = 1 :=
  ⟨rfl, rfl, rfl⟩

/-- C7: the claim says a fault raised inside one parallel worker is re-raised
from `_do_work` after all workers join.  In `ParallelCommand._do_work` the
join loop discards everything (`TODO` in the source) and the method returns
`None`: for one child whose `process()` raises a fatal, nothing is re-raised
and the fault is swallowed at the thread boundary. -/
theorem c7_parallel_fault_swallowed :
    (parallelDoWork [ProcOutcome.raiseFatal critR 1]).raised = none ∧
    (parallelDoWork [ProcOutcome.raiseFatal critR 1]).returned = none ∧
    (parallelDoWork [ProcOutcome.raiseFatal critR 1]).swallowed = [(critR, 1)] :=
  ⟨rfl, rfl, rfl⟩

/-- C8: a shell leaf's `_do_work` maps exit code 0 to an OK result whose
message is the captured stdout, and any non-zero exit code to an ERROR result
whose message is the captured stdout and whose `additional_info` is the
one-element list holding the captured stderr. -/
theorem c8_shell_exit_code_mapping (rc : Int) (out err : String) :
    (rc = 0 → shellDoWork rc out err =
      CommandResult.mk CommandResultLevel.OK (some out) (AdditionalInfo.list [PyVal.str err])) ∧
    (rc ≠ 0 → (shellDoWork rc out err).level = CommandResultLevel.ERROR ∧
      (shellDoWork rc out err).msg = some out ∧
      (shellDoWork rc out err).additional_info = AdditionalInfo.list [PyVal.str err]) := by
  constructor
  · intro h
    simp [shellDoWork, h]
  · intro h
    simp [shellDoWork, h]

/-- C8 witness: the exit-code mapping evaluated at exit codes 0 and 7. -/
theorem c8_shell_witness :
    ((0 : Int) = 0 ∧ shellDoWork 0 outMsg errStream =
      CommandResult.mk CommandResultLevel.OK (some outMsg)
        (AdditionalInfo.list [PyVal.str errStream])) ∧
    ((7 : Int) ≠ 0 ∧ (shellDoWork 7 outMsg errStream).level = CommandResultLevel.ERROR ∧
      (shellDoWork 7 outMsg errStream).msg = some outMsg ∧
      (shellDoWork 7 outMsg errStream).additional_info =
        AdditionalInfo.list [PyVal.str errStream]) := by
  refine ⟨⟨rfl, (c8_shell_exit_code_mapping 0 outMsg errStream).1 rfl⟩, ?_⟩
  have h7 : (7 : Int) ≠ 0 := by decide
  exact ⟨h7, (c8_shell_exit_code_mapping 7 outMsg errStream).2 h7⟩

/-- C9 counterexample: the claim says the timed-out background-thread command
returns an ERROR result with message "timeout"; the code's message is
"Thread timeout". -/
theorem c9_timeout_message_counterexample :
    (threadDoWork true).level = CommandResultLevel.ERROR ∧
    (threadDoWork true).msg ≠ some specTimeoutMsg ∧
    (threadDoWork true).msg = some threadTimeoutMsg :=
  ⟨rfl, by decide, rfl⟩

/-- C9 amended: if the worker is still alive after the timed join, `_do_work`
returns an ERROR result with message "Thread timeout" (not "timeout"); if the
worker finished, it returns an OK result with no message. -/
theorem c9_thread_timeout_amended (alive : Bool) :
    (alive = true → (threadDoWork alive).level = CommandResultLevel.ERROR ∧
      (threadDoWork alive).msg = some threadTimeoutMsg) ∧
    (alive = false → (threadDoWork alive).level = CommandResultLevel.OK ∧
      (threadDoWork alive).msg = none) := by
  cases alive
  · exact ⟨fun h => Bool.noConfusion h, fun _ => ⟨rfl, rfl⟩⟩
  · exact ⟨fun _ => ⟨rfl, rfl⟩, fun h => Bool.noConfusion h⟩

/-- C9 witness: the amended behaviour evaluated at both worker states. -/
theorem c9_thread_timeout_witness :
    ((threadDoWork true).level = CommandResultLevel.ERROR ∧
      (threadDoWork true).msg = some threadTimeoutMsg) ∧
    ((threadDoWork false).level = CommandResultLevel.OK ∧
      (threadDoWork false).msg = none) :=
  ⟨(c9_thread_timeout_amended true).1 rfl, (c9_thread_timeout_amended false).2 rfl⟩

/-- C10 counterexample: the two engines are not equivalent.  For a do-work
behaviour returning an OK result under the omit strategy, the
`command/base.py` engine's `process()` returns `None` while the `command.py`
engine returns the OK result. -/
theorem c10_engines_not_equivalent :
    processBase okBeh ErrorStrategy.omit s0 = (ProcOutcome.ret none, EngineState.mk 1 1) ∧
    processCmd okBeh ErrorStrategy.omit s0 = (ProcOutcome.ret (some okR), EngineState.mk 1 1) ∧
    (ProcOutcome.ret none : ProcOutcome) ≠ ProcOutcome.ret (some okR) :=
  ⟨rfl, rfl, by decide⟩

/-- C10 amended: the engines do agree on the fault-raising behaviours.  When
the first `_do_work` call raises `RunnerRuntimeError` both engines re-raise it
unchanged, and when the first call returns a CRITICAL result both engines
raise `RunnerRuntimeError(result, 1)`; in both cases with the same `_do_work`
call count and Counter value. -/
theorem c10_engines_agree_on_faults (work : Nat → DoWorkOutcome)
    (strat : ErrorStrategy) (s : EngineState) :
    (∀ r n, work s.calls = DoWorkOutcome.raiseFatal r n →
      processBase work strat s =
        (ProcOutcome.raiseFatal r n, EngineState.mk (s.calls + 1) s.counter) ∧
      processCmd work strat s =
        (ProcOutcome.raiseFatal r n, EngineState.mk (s.calls + 1) s.counter)) ∧
    (∀ r, work s.calls = DoWorkOutcome.ret (some r) →
      r.level = CommandResultLevel.CRITICAL →
      processBase work strat s =
        (ProcOutcome.raiseFatal r 1, EngineState.mk (s.calls + 1) s.counter) ∧
      processCmd work strat s =
        (ProcOutcome.raiseFatal r 1, EngineState.mk (s.calls + 1) s.counter)) := by
  constructor
  · intro r n h
    constructor
    · simp [processBase, doProcessBase, h, dropReturn]
    · exact processCmdAux_fatal work strat 2 1 none s r n h
  · intro r h hl
    constructor
    · simp [processBase, doProcessBase, dispatchBase, h, hl, dropReturn]
    · exact processCmdAux_critical work strat 2 1 none s r h hl

/-- C10 witness: the fault agreement evaluated at a concrete propagated
fault. -/
theorem c10_engines_agree_witness :
    processBase fatalBeh ErrorStrategy.stop s0 =
      (ProcOutcome.raiseFatal errR 5, EngineState.mk 1 0) ∧
    processCmd fatalBeh ErrorStrategy.stop s0 =
      (ProcOutcome.raiseFatal errR 5, EngineState.mk 1 0) :=
  (c10_engines_agree_on_faults fatalBeh ErrorStrategy.stop s0).1 errR 5 rfl

end Runner

